import Mathlib

/-!
Shallow embedding of the unit-conversion core of the Metrics-calculator
repository (src/src/App.tsx). Numeric values are modelled as exact
rationals; every decimal literal of the source is exactly representable.
The `result` computation of App.tsx (lines 193-246) becomes the pure
function `convert`; `null` results become `none`.
-/

namespace Metrics

/-- The `Unit` interface of App.tsx: a display label, a stable code
(`value`), an optional linear `factor` and an optional temperature
`offset`. -/
structure MUnit where
  label : String
  value : String
  factor : Option ℚ := none
  offset : Option ℚ := none
deriving DecidableEq, Repr

/-- One record of `BEAUFORT_SCALE` in App.tsx (lines 52-66). -/
structure BeaufortEntry where
  level : ℕ
  minKt : ℚ
  description : String
  seaEffect : String
deriving DecidableEq, Repr

/-- The `Category` union type of App.tsx (line 33). -/
inductive Category where
  | length
  | weight
  | speed
  | pressure
  | temperature
  | wind
deriving DecidableEq, Repr

/-- `BEAUFORT_SCALE` from App.tsx lines 52-66 (sea-effect narratives
kept verbatim is unnecessary for the conversion logic; level, threshold
and description are kept). -/
def BEAUFORT_SCALE : List BeaufortEntry := [
  ⟨0, 0, "Calm", "Sea like a mirror."⟩,
  ⟨1, 1, "Light air", "Ripples with appearance of scales are formed, without foam crests."⟩,
  ⟨2, 4, "Light breeze", "Small wavelets still short but more pronounced; crests have a glassy appearance but do not break."⟩,
  ⟨3, 7, "Gentle breeze", "Large wavelets; crests begin to break; foam of glassy appearance. Perhaps scattered white horses."⟩,
  ⟨4, 11, "Moderate breeze", "Small waves becoming longer; fairly frequent white horses."⟩,
  ⟨5, 17, "Fresh breeze", "Moderate waves taking a more pronounced long form; many white horses are formed. Chance of some spray."⟩,
  ⟨6, 22, "Strong breeze", "Large waves begin to form; the white foam crests are more extensive everywhere. Probably some spray."⟩,
  ⟨7, 28, "Near gale", "Sea heaps up and white foam from breaking waves begins to be blown in streaks along the direction of the wind."⟩,
  ⟨8, 34, "Gale", "Moderately high waves of greater length; edges of crests break into spindrift. Foam is blown in well-marked streaks."⟩,
  ⟨9, 41, "Strong gale", "High waves. Dense streaks of foam along the direction of the wind. Sea begins to roll. Spray may affect visibility."⟩,
  ⟨10, 48, "Storm", "Very high waves with long overhanging crests. Resulting foam in great patches is blown in dense white streaks."⟩,
  ⟨11, 56, "Violent storm", "Exceptionally high waves. Sea is completely covered with long white patches of foam. Visibility affected."⟩,
  ⟨12, 64, "Hurricane", "The air is filled with foam and spray. Sea completely white with driving spray; visibility very seriously affected."⟩]

/-- The `UNITS` registry from App.tsx lines 77-118. -/
def UNITS : Category → List MUnit
  | .length => [
      { label := "Nautical Miles (nmi)", value := "nmi", factor := some 1852 },
      { label := "Fathoms (ftm)", value := "ftm", factor := some 1.8288 },
      { label := "Meters (m)", value := "m", factor := some 1 },
      { label := "Kilometers (km)", value := "km", factor := some 1000 },
      { label := "Feet (ft)", value := "ft", factor := some 0.3048 },
      { label := "Yards (yd)", value := "yd", factor := some 0.9144 },
      { label := "Miles (mi)", value := "mi", factor := some 1609.344 }]
  | .speed => [
      { label := "Knots (kt)", value := "kt", factor := some 1.852 },
      { label := "m/s", value := "ms", factor := some 3.6 },
      { label := "km/h", value := "kmh", factor := some 1 },
      { label := "mph", value := "mph", factor := some 1.60934 }]
  | .wind => [
      { label := "Beaufort Scale", value := "bf" },
      { label := "Knots (kt)", value := "kt", factor := some 1.852 },
      { label := "m/s", value := "ms", factor := some 3.6 },
      { label := "km/h", value := "kmh", factor := some 1 },
      { label := "mph", value := "mph", factor := some 1.60934 }]
  | .pressure => [
      { label := "Hectopascals (hPa)", value := "hpa", factor := some 1 },
      { label := "Millibars (mb)", value := "mb", factor := some 1 },
      { label := "Inches of Mercury (inHg)", value := "inhg", factor := some 33.8639 },
      { label := "Millimeters of Mercury (mmHg)", value := "mmhg", factor := some 1.33322 },
      { label := "PSI", value := "psi", factor := some 68.9476 }]
  | .weight => [
      { label := "Metric Tons (t)", value := "t", factor := some 1000 },
      { label := "Kilograms (kg)", value := "kg", factor := some 1 },
      { label := "Grams (g)", value := "g", factor := some 0.001 },
      { label := "Pounds (lb)", value := "lb", factor := some 0.453592 }]
  | .temperature => [
      { label := "Celsius (°C)", value := "C", offset := some 0 },
      { label := "Fahrenheit (°F)", value := "F", offset := some 32 },
      { label := "Kelvin (K)", value := "K", offset := some 273.15 }]

/-- Registry lookup `units.find(u => u.value === code)`. -/
def findUnit (c : Category) (code : String) : Option MUnit :=
  (UNITS c).find? (fun u => u.value == code)

/-- The intermediate-Celsius dispatch on `fromUnit` (App.tsx lines
199-202): the `let celsius` chain, whose default leaves `celsius = 0`. -/
def toCelsius (fromUnit : String) (val : ℚ) : ℚ :=
  if fromUnit == "C" then val
  else if fromUnit == "F" then (val - 32) * (5 / 9)
  else if fromUnit == "K" then val - 273.15
  else 0

/-- The Celsius-to-target dispatch on `toUnit` (App.tsx lines 204-207);
the final `return celsius` is the fallthrough default. -/
def fromCelsius (toUnit : String) (celsius : ℚ) : ℚ :=
  if toUnit == "C" then celsius
  else if toUnit == "F" then celsius * (9 / 5) + 32
  else if toUnit == "K" then celsius + 273.15
  else celsius

/-- The temperature branch of `result` (App.tsx lines 197-207): every
path returns a number, so it never yields `none`. -/
def tempConvert (fromUnit toUnit : String) (val : ℚ) : Option ℚ :=
  some (fromCelsius toUnit (toCelsius fromUnit val))

/-- Placeholder entry used to totalise `List.getD`; the source indexes
`BEAUFORT_SCALE[level]` with `level` already clamped to [0,12], so the
default is never reached. -/
def dfltEntry : BeaufortEntry := ⟨0, 0, "", ""⟩

/-- `BEAUFORT_SCALE[i].minKt`, totalised with the unreachable default. -/
def minKtOf (i : ℕ) : ℚ := (BEAUFORT_SCALE.getD i dfltEntry).minKt

/-- The descending scan of App.tsx lines 223-229: `level = 0; for (i =
12; i >= 0; i--) if (knots >= BEAUFORT_SCALE[i].minKt) { level = i;
break }`.  `levelScan knots n` scans indices `n-1, n-2, ..., 0`. -/
def levelScan (knots : ℚ) : ℕ → ℕ
  | 0 => 0
  | i + 1 => if minKtOf i ≤ knots then i else levelScan knots i

/-- `levelForKnots` of spec §4.3: the scan over the whole table. -/
def levelForKnots (knots : ℚ) : ℕ := levelScan knots BEAUFORT_SCALE.length

/-- The source-side computation `baseValueKmH` of the wind branch
(App.tsx lines 210-219).  For `"bf"` the input is floored and clamped to
[0,12] and the level's threshold converted to km/h; otherwise the unit
must be found and have a truthy (defined, non-zero) factor. -/
def windBase (fromUnit : String) (val : ℚ) : Option ℚ :=
  if fromUnit == "bf" then
    let level := (max 0 (min 12 ⌊val⌋)).toNat
    some ((BEAUFORT_SCALE.getD level dfltEntry).minKt * 1.852)
  else
    match (UNITS .wind).find? (fun u => u.value == fromUnit) with
    | none => none
    | some u =>
      match u.factor with
      | none => none
      | some f => if f = 0 then none else some (val * f)

/-- The wind branch of `result` (App.tsx lines 208-235). -/
def windConvert (fromUnit toUnit : String) (val : ℚ) : Option ℚ :=
  match windBase fromUnit val with
  | none => none
  | some baseValueKmH =>
    if toUnit == "bf" then
      some ((levelForKnots (baseValueKmH / 1.852) : ℕ) : ℚ)
    else
      match (UNITS .wind).find? (fun u => u.value == toUnit) with
      | none => none
      | some u =>
        match u.factor with
        | none => none
        | some t => if t = 0 then none else some (baseValueKmH / t)

/-- The linear branch of `result` (App.tsx lines 236-245): both units
must be found and have truthy factors (`!from.factor` in JS is also true
for a zero factor), then `base = val * from.factor; base / to.factor`. -/
def linearConvert (units : List MUnit) (fromUnit toUnit : String) (val : ℚ) : Option ℚ :=
  match units.find? (fun u => u.value == fromUnit),
        units.find? (fun u => u.value == toUnit) with
  | some u, some w =>
    match u.factor, w.factor with
    | some f, some t =>
      if f = 0 then none
      else if t = 0 then none
      else some ((val * f) / t)
    | _, _ => none
  | _, _ => none

/-- The `result` useMemo of App.tsx lines 193-246, after `parseFloat`
has succeeded (a non-parseable input returns `null` before reaching this
dispatch). -/
def convert : Category → String → String → ℚ → Option ℚ
  | .temperature, fromUnit, toUnit, val => tempConvert fromUnit toUnit val
  | .wind, fromUnit, toUnit, val => windConvert fromUnit toUnit val
  | c, fromUnit, toUnit, val => linearConvert (UNITS c) fromUnit toUnit val

/-- The four categories handled by the final (linear) branch. -/
def Category.isLinear : Category → Prop
  | .length | .weight | .speed | .pressure => True
  | .temperature | .wind => False

/-! ### Helper lemmas about the embedded definitions -/

theorem levelScan_lt (k : ℚ) : ∀ n, 0 < n → levelScan k n < n
  | n + 1, _ => by
    unfold levelScan
    split
    · exact Nat.lt_succ_self n
    · cases n with
      | zero => exact Nat.zero_lt_one
      | succ m => exact Nat.lt_succ_of_lt (levelScan_lt k (m + 1) (Nat.succ_pos m))

theorem levelForKnots_le (k : ℚ) : levelForKnots k ≤ 12 := by
  have h := levelScan_lt k 13 (by norm_num)
  have hlen : BEAUFORT_SCALE.length = 13 := rfl
  unfold levelForKnots
  rw [hlen]
  omega

theorem levelScan_ge (k : ℚ) : ∀ n i, i < n → minKtOf i ≤ k → i ≤ levelScan k n
  | n + 1, i, hi, hmin => by
    unfold levelScan
    split
    · omega
    · rename_i hnot
      have hne : i ≠ n := fun e => hnot (e ▸ hmin)
      exact levelScan_ge k n i (by omega) hmin

theorem levelScan_fallback (k : ℚ) : ∀ n, minKtOf (levelScan k n) ≤ k ∨ levelScan k n = 0
  | 0 => Or.inr rfl
  | n + 1 => by
    unfold levelScan
    split
    · exact Or.inl (by assumption)
    · exact levelScan_fallback k n

/-- Every factor stored in the registry is non-zero, so the JS truthiness
check `!u.factor` only fires on units without a factor. -/
theorem factor_ne_zero :
    ∀ (c : Category) (u : MUnit), u ∈ UNITS c → ∀ f, u.factor = some f → f ≠ 0 := by
  intro c u hu f hf
  cases c <;> fin_cases hu <;>
    first
      | exact Option.noConfusion hf
      | (injection hf with h; subst h; norm_num)

/-- Unit codes are unique within a category: looking up a registered
unit's own code finds that unit. -/
theorem findUnit_self : ∀ (c : Category) (u : MUnit), u ∈ UNITS c → findUnit c u.value = some u := by
  intro c u hu
  cases c <;> fin_cases hu <;> rfl

theorem linearConvert_some (units : List MUnit) (fromUnit toUnit : String) (v : ℚ)
    (u w : MUnit) (f t : ℚ)
    (hu : units.find? (fun x => x.value == fromUnit) = some u)
    (hw : units.find? (fun x => x.value == toUnit) = some w)
    (hf : u.factor = some f) (ht : w.factor = some t)
    (hf0 : f ≠ 0) (ht0 : t ≠ 0) :
    linearConvert units fromUnit toUnit v = some ((v * f) / t) := by
  simp only [linearConvert, hu, hw, hf, ht]
  simp [hf0, ht0]

theorem linearConvert_none (units : List MUnit) (fromUnit toUnit : String) (v : ℚ)
    (h : units.find? (fun x => x.value == fromUnit) = none
       ∨ (∃ u, units.find? (fun x => x.value == fromUnit) = some u ∧ u.factor = none)
       ∨ units.find? (fun x => x.value == toUnit) = none
       ∨ (∃ w, units.find? (fun x => x.value == toUnit) = some w ∧ w.factor = none)) :
    linearConvert units fromUnit toUnit v = none := by
  rcases h with h | ⟨u, hu, hfac⟩ | h | ⟨w, hw, hfac⟩
  · simp only [linearConvert, h]
  · cases hw : units.find? (fun x => x.value == toUnit) with
    | none => simp only [linearConvert, hu, hw]
    | some w => simp only [linearConvert, hu, hw, hfac]
  · cases hu : units.find? (fun x => x.value == fromUnit) with
    | none => simp only [linearConvert, hu]
    | some u => simp only [linearConvert, hu, h]
  · cases hu : units.find? (fun x => x.value == fromUnit) with
    | none => simp only [linearConvert, hu]
    | some u => simp only [linearConvert, hu, hw, hfac]; cases u.factor <;> rfl

/-- The `i`-th Beaufort record carries level `i` and belongs to the table. -/
theorem getD_mem_level (n : ℕ) (hn : n < 13) :
    BEAUFORT_SCALE.getD n dfltEntry ∈ BEAUFORT_SCALE
    ∧ (BEAUFORT_SCALE.getD n dfltEntry).level = n := by
  interval_cases n <;> exact ⟨by simp [BEAUFORT_SCALE, List.getD], rfl⟩

/-- The descending scan recovers the level of an exact threshold value:
thresholds are strictly increasing, so `minKt` is injective on levels. -/
theorem levelForKnots_minKt (m : ℕ) (hm : m < 13) : levelForKnots (minKtOf m) = m := by
  interval_cases m <;>
    norm_num [levelForKnots, levelScan, minKtOf, BEAUFORT_SCALE, dfltEntry, List.getD]

/-- Converting a registered linear-category unit to itself is exact:
`(v * f) / f = v` for the unit's own non-zero factor. -/
theorem convert_self_linear (c : Category) (hc : c.isLinear) (u : MUnit) (hu : u ∈ UNITS c)
    (f : ℚ) (hf : u.factor = some f) (v : ℚ) : convert c u.value u.value v = some v := by
  have hfind := findUnit_self c u hu
  have hf0 := factor_ne_zero c u hu f hf
  have h := linearConvert_some (UNITS c) u.value u.value v u u f f hfind hfind hf hf hf0 hf0
  cases c
  case temperature => exact hc.elim
  case wind => exact hc.elim
  all_goals exact h.trans (congrArg some (mul_div_cancel_right₀ v hf0))

/-- A non-"bf" wind unit with a non-zero factor converts to itself
exactly: the km/h pipeline multiplies and divides by the same factor. -/
theorem windConvert_self (code : String) (u : MUnit) (f : ℚ)
    (hcode : (code == "bf") = false)
    (hfind : (UNITS .wind).find? (fun x => x.value == code) = some u)
    (hf : u.factor = some f) (hf0 : f ≠ 0) (v : ℚ) :
    windConvert code code v = some v := by
  simp only [windConvert, windBase, hcode, hfind, hf, Bool.false_eq_true, if_false,
    if_neg hf0]
  rw [mul_div_cancel_right₀ v hf0]

/-- Beaufort-to-Beaufort conversion returns the floored input clamped
to [0, 12]: the level's threshold is scaled to km/h and immediately
scaled back, and the strictly increasing thresholds make the descending
scan recover the level. -/
theorem convert_bf_self (v : ℚ) :
    convert .wind "bf" "bf" v = some (((max 0 (min 12 ⌊v⌋)).toNat : ℚ)) := by
  have hb0 : 0 ≤ max 0 (min 12 ⌊v⌋) := le_max_left _ _
  have hb12 : max 0 (min 12 ⌊v⌋) ≤ 12 := max_le (by norm_num) (min_le_left _ _)
  have hn : (max 0 (min 12 ⌊v⌋)).toNat < 13 := by omega
  have hbase : windBase "bf" v
      = some ((BEAUFORT_SCALE.getD (max 0 (min 12 ⌊v⌋)).toNat dfltEntry).minKt * 1.852) := rfl
  rw [show convert .wind "bf" "bf" v = windConvert "bf" "bf" v from rfl]
  unfold windConvert
  rw [hbase]
  show some ((levelForKnots
      ((BEAUFORT_SCALE.getD (max 0 (min 12 ⌊v⌋)).toNat dfltEntry).minKt * 1.852 / 1.852)
      : ℕ) : ℚ) = _
  rw [mul_div_cancel_right₀ _ (by norm_num : (1.852 : ℚ) ≠ 0)]
  rw [show (BEAUFORT_SCALE.getD (max 0 (min 12 ⌊v⌋)).toNat dfltEntry).minKt
      = minKtOf (max 0 (min 12 ⌊v⌋)).toNat from rfl]
  rw [levelForKnots_minKt _ hn]

/-- Converting a linear wind unit (one with a factor) to itself is
exact. -/
theorem convert_self_wind (u : MUnit) (hu : u ∈ UNITS .wind) (f : ℚ)
    (hf : u.factor = some f) (v : ℚ) : convert .wind u.value u.value v = some v := by
  fin_cases hu
  · exact Option.noConfusion hf
  · injection hf with hfe
    subst hfe
    exact windConvert_self "kt" ⟨"Knots (kt)", "kt", some 1.852, none⟩ 1.852
      rfl rfl rfl (by norm_num) v
  · injection hf with hfe
    subst hfe
    exact windConvert_self "ms" ⟨"m/s", "ms", some 3.6, none⟩ 3.6
      rfl rfl rfl (by norm_num) v
  · injection hf with hfe
    subst hfe
    exact windConvert_self "kmh" ⟨"km/h", "kmh", some 1, none⟩ 1
      rfl rfl rfl (by norm_num) v
  · injection hf with hfe
    subst hfe
    exact windConvert_self "mph" ⟨"mph", "mph", some 1.60934, none⟩ 1.60934
      rfl rfl rfl (by norm_num) v

/-! ### Claim theorems -/

/-- C1: for every linear category (length, weight, speed, pressure) and
every input value whose source and target unit codes both resolve to
registry entries with a defined factor, `convert` returns
`(v * from.factor) / to.factor`; if either code does not resolve or
lacks a factor, `convert` returns failure. -/
theorem c1_linear_formula (c : Category) (hc : c.isLinear) (fromUnit toUnit : String) (v : ℚ) :
    (∀ u w f t, findUnit c fromUnit = some u → u.factor = some f →
        findUnit c toUnit = some w → w.factor = some t →
        convert c fromUnit toUnit v = some ((v * f) / t))
    ∧ ((findUnit c fromUnit = none
        ∨ (∃ u, findUnit c fromUnit = some u ∧ u.factor = none)
        ∨ findUnit c toUnit = none
        ∨ (∃ w, findUnit c toUnit = some w ∧ w.factor = none))
      → convert c fromUnit toUnit v = none) := by
  have handle : ∀ (units : List MUnit),
      (∀ u, u ∈ units → ∀ f, u.factor = some f → f ≠ 0) →
      (∀ u w f t, units.find? (fun x => x.value == fromUnit) = some u → u.factor = some f →
          units.find? (fun x => x.value == toUnit) = some w → w.factor = some t →
          linearConvert units fromUnit toUnit v = some ((v * f) / t))
      ∧ ((units.find? (fun x => x.value == fromUnit) = none
          ∨ (∃ u, units.find? (fun x => x.value == fromUnit) = some u ∧ u.factor = none)
          ∨ units.find? (fun x => x.value == toUnit) = none
          ∨ (∃ w, units.find? (fun x => x.value == toUnit) = some w ∧ w.factor = none))
        → linearConvert units fromUnit toUnit v = none) := by
    intro units hnz
    refine ⟨fun u w f t hu hf hw ht =>
      linearConvert_some units fromUnit toUnit v u w f t hu hw hf ht
        (hnz u (List.mem_of_find?_eq_some hu) f hf)
        (hnz w (List.mem_of_find?_eq_some hw) t ht),
      fun h => linearConvert_none units fromUnit toUnit v h⟩
  cases c
  case temperature => exact hc.elim
  case wind => exact hc.elim
  all_goals exact handle (UNITS _) (fun u hu f hf => factor_ne_zero _ u hu f hf)

/-- Witness for C1: converting 1 km to m applies the factors 1000 and 1. -/
theorem c1_witness : convert .length "km" "m" 1 = some ((1 * 1000) / 1) :=
  (c1_linear_formula .length trivial "km" "m" 1).1
    ⟨"Kilometers (km)", "km", some 1000, none⟩
    ⟨"Meters (m)", "m", some 1, none⟩ 1000 1 rfl rfl rfl rfl

/-- C2: every temperature conversion first maps the input to an
intermediate Celsius value (Celsius unchanged, Fahrenheit via
`(F - 32) * 5/9`, Kelvin via `K - 273.15`) and then maps Celsius to the
target (Celsius unchanged, Fahrenheit via `C * 9/5 + 32`, Kelvin via
`C + 273.15`); in particular 0 °C = 32 °F, 0 °C = 273.15 K and
32 °F = 0 °C. -/
theorem c2_temperature_formulas (v : ℚ) :
    convert .temperature "C" "C" v = some v
    ∧ convert .temperature "C" "F" v = some (v * (9 / 5) + 32)
    ∧ convert .temperature "C" "K" v = some (v + 273.15)
    ∧ convert .temperature "F" "C" v = some ((v - 32) * (5 / 9))
    ∧ convert .temperature "F" "F" v = some ((v - 32) * (5 / 9) * (9 / 5) + 32)
    ∧ convert .temperature "F" "K" v = some ((v - 32) * (5 / 9) + 273.15)
    ∧ convert .temperature "K" "C" v = some (v - 273.15)
    ∧ convert .temperature "K" "F" v = some ((v - 273.15) * (9 / 5) + 32)
    ∧ convert .temperature "K" "K" v = some (v - 273.15 + 273.15)
    ∧ convert .temperature "C" "F" 0 = some 32
    ∧ convert .temperature "C" "K" 0 = some 273.15
    ∧ convert .temperature "F" "C" 32 = some 0 := by
  refine ⟨rfl, rfl, rfl, rfl, rfl, rfl, rfl, rfl, rfl, ?_, ?_, ?_⟩
  · rw [show convert .temperature "C" "F" 0 = some ((0 : ℚ) * (9 / 5) + 32) from rfl]
    norm_num
  · rw [show convert .temperature "C" "K" 0 = some ((0 : ℚ) + 273.15) from rfl]
    norm_num
  · rw [show convert .temperature "F" "C" 32 = some (((32 : ℚ) - 32) * (5 / 9)) from rfl]
    norm_num

/-- Witness for C2: 25 °C converts to 25 * 9/5 + 32 °F. -/
theorem c2_witness : convert .temperature "C" "F" 25 = some (25 * (9 / 5) + 32) :=
  (c2_temperature_formulas 25).2.1

/-- C8: Beaufort level 4 converts to its 11-knot threshold, and 11 knots
converts back to Beaufort level 4. -/
theorem c8_beaufort_boundary :
    convert .wind "bf" "kt" 4 = some 11 ∧ convert .wind "kt" "bf" 11 = some 4 := by
  constructor
  · simp [convert, windConvert, windBase, UNITS, BEAUFORT_SCALE, dfltEntry, List.find?]
    norm_num
  · simp [convert, windConvert, windBase, levelForKnots, levelScan, minKtOf,
      UNITS, BEAUFORT_SCALE, dfltEntry, List.find?]
    norm_num

/-- C3: for every wind conversion targeting "bf" whose source resolves
to a base km/h value `b`, `convert` returns the level of the descending
scan over `b / 1.852` knots; the scan result is the highest level whose
`minKt` threshold is at or below the knot value, with level 0 as the
fallback floor (no failure even for negative wind speed). -/
theorem c3_wind_to_beaufort (fromUnit : String) (v b : ℚ)
    (hb : windBase fromUnit v = some b) :
    convert .wind fromUnit "bf" v = some ((levelForKnots (b / 1.852) : ℕ) : ℚ)
    ∧ levelForKnots (b / 1.852) ≤ 12
    ∧ (∀ i : ℕ, i ≤ 12 → minKtOf i ≤ b / 1.852 → i ≤ levelForKnots (b / 1.852))
    ∧ (minKtOf (levelForKnots (b / 1.852)) ≤ b / 1.852 ∨ levelForKnots (b / 1.852) = 0) := by
  refine ⟨?_, levelForKnots_le _, ?_, ?_⟩
  · rw [show convert .wind fromUnit "bf" v = windConvert fromUnit "bf" v from rfl]
    unfold windConvert
    rw [hb]
    rfl
  · intro i hi hmin
    exact levelScan_ge (b / 1.852) 13 i (by omega) hmin
  · exact levelScan_fallback (b / 1.852) 13

/-- Witness for C3: 11 knots resolve to base 11 * 1.852 km/h, and the
conversion to "bf" applies the descending scan. -/
theorem c3_witness :
    convert .wind "kt" "bf" 11 = some ((levelForKnots ((11 * 1.852) / 1.852) : ℕ) : ℚ) :=
  (c3_wind_to_beaufort "kt" 11 (11 * 1.852)
    (by simp [windBase, UNITS, List.find?]; norm_num)).1

/-- C4: a Beaufort-source wind conversion never fails on the source
side: the input is floored and clamped to [0, 12], the matching table
entry's threshold is scaled by 1.852 into km/h, and conversion to any
wind unit of the registry succeeds for every real input. -/
theorem c4_beaufort_input (v : ℚ) :
    (∃ e, e ∈ BEAUFORT_SCALE ∧ (e.level : ℤ) = max 0 (min 12 ⌊v⌋)
       ∧ windBase "bf" v = some (e.minKt * 1.852))
    ∧ (∀ toUnit, toUnit ∈ (["bf", "kt", "ms", "kmh", "mph"] : List String) →
        convert .wind "bf" toUnit v ≠ none) := by
  have hb0 : 0 ≤ max 0 (min 12 ⌊v⌋) := le_max_left _ _
  have hb12 : max 0 (min 12 ⌊v⌋) ≤ 12 := max_le (by norm_num) (min_le_left _ _)
  have hn : (max 0 (min 12 ⌊v⌋)).toNat < 13 := by omega
  obtain ⟨hmem, hlev⟩ := getD_mem_level _ hn
  have hbase : windBase "bf" v
      = some ((BEAUFORT_SCALE.getD (max 0 (min 12 ⌊v⌋)).toNat dfltEntry).minKt * 1.852) := rfl
  constructor
  · refine ⟨BEAUFORT_SCALE.getD (max 0 (min 12 ⌊v⌋)).toNat dfltEntry, hmem, ?_, hbase⟩
    rw [hlev]
    omega
  · intro toUnit htu
    fin_cases htu <;> simp [convert, windConvert, hbase, UNITS, List.find?] <;> norm_num

/-- Witness for C4: a negative fractional Beaufort input still converts. -/
theorem c4_witness : convert .wind "bf" "kmh" (-7 / 2) ≠ none :=
  (c4_beaufort_input (-7 / 2)).2 "kmh" (by decide)

/-- C10: whenever a wind conversion targeting "bf" returns a result,
that result is a natural number at most 12 — never fractional, negative
or beyond the scale. -/
theorem c10_bf_result_range (fromUnit : String) (v r : ℚ)
    (h : convert .wind fromUnit "bf" v = some r) :
    ∃ n : ℕ, n ≤ 12 ∧ r = (n : ℚ) := by
  rw [show convert .wind fromUnit "bf" v = windConvert fromUnit "bf" v from rfl] at h
  unfold windConvert at h
  cases hb : windBase fromUnit v with
  | none => rw [hb] at h; exact absurd h (by simp)
  | some b =>
      rw [hb] at h
      simp at h
      exact ⟨levelForKnots (b / 1.852), levelForKnots_le _, h.symm⟩

/-- Witness for C10: 100 km/h converts to Beaufort level 10. -/
theorem c10_witness : ∃ n : ℕ, n ≤ 12 ∧ (10 : ℚ) = (n : ℚ) :=
  c10_bf_result_range "kmh" 100 10 (by
    simp [convert, windConvert, windBase, levelForKnots, levelScan, minKtOf, UNITS,
      BEAUFORT_SCALE, dfltEntry, List.find?]
    norm_num)

/-- Counterexample to C5: a temperature conversion with the unknown
source code "X" does not fail; it returns 0 (the default intermediate
Celsius value reaches every fallthrough). -/
theorem c5_counterexample : convert .temperature "X" "C" 5 = some 0 := rfl

/-- C5 amended: a temperature conversion never fails; an unrecognized
source code yields the default intermediate Celsius value 0, and an
unrecognized target code returns the intermediate Celsius value
unchanged. -/
theorem c5_amended (fromUnit toUnit : String) (v : ℚ) :
    (convert .temperature fromUnit toUnit v).isSome = true
    ∧ (fromUnit ∉ (["C", "F", "K"] : List String) →
        convert .temperature fromUnit toUnit v = some (fromCelsius toUnit 0))
    ∧ (toUnit ∉ (["C", "F", "K"] : List String) →
        convert .temperature fromUnit toUnit v = some (toCelsius fromUnit v)) := by
  refine ⟨rfl, ?_, ?_⟩
  · intro h
    simp only [List.mem_cons, List.not_mem_nil, or_false, not_or] at h
    rw [show convert .temperature fromUnit toUnit v
        = some (fromCelsius toUnit (toCelsius fromUnit v)) from rfl]
    simp [toCelsius, h.1, h.2.1, h.2.2]
  · intro h
    simp only [List.mem_cons, List.not_mem_nil, or_false, not_or] at h
    rw [show convert .temperature fromUnit toUnit v
        = some (fromCelsius toUnit (toCelsius fromUnit v)) from rfl]
    simp [fromCelsius, h.1, h.2.1, h.2.2]

/-- Witness for C5 amended: unknown codes on both sides at input 5. -/
theorem c5_witness :
    convert .temperature "X" "Y" 5 = some (fromCelsius "Y" 0)
    ∧ convert .temperature "X" "Y" 5 = some (toCelsius "X" 5) :=
  ⟨(c5_amended "X" "Y" 5).2.1 (by decide), (c5_amended "X" "Y" 5).2.2 (by decide)⟩

/-- Counterexample to C6: the pressure category has two distinct units
with factor 1 (hPa and mb), so it has no unique base unit. -/
theorem c6_counterexample : ¬ ∃! u : MUnit, u ∈ UNITS .pressure ∧ u.factor = some 1 := by
  rintro ⟨u, _, huniq⟩
  have h1 : (⟨"Hectopascals (hPa)", "hpa", some 1, none⟩ : MUnit) = u :=
    huniq _ ⟨List.Mem.head _, rfl⟩
  have h2 : (⟨"Millibars (mb)", "mb", some 1, none⟩ : MUnit) = u :=
    huniq _ ⟨List.Mem.tail _ (List.Mem.head _), rfl⟩
  have h3 : ("Hectopascals (hPa)" : String) = "Millibars (mb)" :=
    congrArg MUnit.label (h1.trans h2.symm)
  exact absurd h3 (by decide)

/-- C6 amended: length, weight, speed and wind each have exactly one
unit of factor 1; pressure has exactly two (hPa and mb); temperature
enumerates exactly Celsius, Fahrenheit, Kelvin. -/
theorem c6_amended :
    (∃! u : MUnit, u ∈ UNITS .length ∧ u.factor = some 1)
    ∧ (∃! u : MUnit, u ∈ UNITS .weight ∧ u.factor = some 1)
    ∧ (∃! u : MUnit, u ∈ UNITS .speed ∧ u.factor = some 1)
    ∧ (∃! u : MUnit, u ∈ UNITS .wind ∧ u.factor = some 1)
    ∧ (∀ u ∈ UNITS .pressure, u.factor = some 1 ↔ (u.value = "hpa" ∨ u.value = "mb"))
    ∧ (UNITS .temperature).map MUnit.value = ["C", "F", "K"] := by
  refine ⟨⟨⟨"Meters (m)", "m", some 1, none⟩,
      ⟨List.Mem.tail _ (List.Mem.tail _ (List.Mem.head _)), rfl⟩, ?_⟩,
    ⟨⟨"Kilograms (kg)", "kg", some 1, none⟩,
      ⟨List.Mem.tail _ (List.Mem.head _), rfl⟩, ?_⟩,
    ⟨⟨"km/h", "kmh", some 1, none⟩,
      ⟨List.Mem.tail _ (List.Mem.tail _ (List.Mem.head _)), rfl⟩, ?_⟩,
    ⟨⟨"km/h", "kmh", some 1, none⟩,
      ⟨List.Mem.tail _ (List.Mem.tail _ (List.Mem.tail _ (List.Mem.head _))), rfl⟩, ?_⟩,
    ?_, rfl⟩
  · rintro w ⟨hw, hfw⟩
    fin_cases hw <;> first | rfl | (injection hfw with hfe; exact absurd hfe (by norm_num))
  · rintro w ⟨hw, hfw⟩
    fin_cases hw <;> first | rfl | (injection hfw with hfe; exact absurd hfe (by norm_num))
  · rintro w ⟨hw, hfw⟩
    fin_cases hw <;> first | rfl | (injection hfw with hfe; exact absurd hfe (by norm_num))
  · rintro w ⟨hw, hfw⟩
    fin_cases hw <;>
      first
        | rfl
        | exact Option.noConfusion hfw
        | (injection hfw with hfe; exact absurd hfe (by norm_num))
  · intro u hu
    fin_cases hu <;> constructor <;> intro h
    · exact Or.inl rfl
    · rfl
    · exact Or.inr rfl
    · rfl
    · injection h with hfe; exact absurd hfe (by norm_num)
    · rcases h with h | h <;> exact absurd h (by decide)
    · injection h with hfe; exact absurd hfe (by norm_num)
    · rcases h with h | h <;> exact absurd h (by decide)
    · injection h with hfe; exact absurd hfe (by norm_num)
    · rcases h with h | h <;> exact absurd h (by decide)

/-- Witness for C6 amended: the hPa unit of the pressure registry has
factor 1 because its code is "hpa". -/
theorem c6_witness : (⟨"Hectopascals (hPa)", "hpa", some 1, none⟩ : MUnit).factor = some 1 :=
  (c6_amended.2.2.2.2.1 ⟨"Hectopascals (hPa)", "hpa", some 1, none⟩
    (List.Mem.head _)).mpr (Or.inl rfl)

/-- Counterexample to C7: self-conversion is not the identity for the
Beaufort unit; 4.5 Beaufort converts to 4, not 4.5. -/
theorem c7_counterexample :
    convert .wind "bf" "bf" (9 / 2) = some 4 ∧ ((9 : ℚ) / 2) ≠ 4 := by
  have hf : ⌊(9 / 2 : ℚ)⌋ = 4 := by norm_num
  have hc : (max 0 (min 12 (4 : ℤ))).toNat = 4 := by decide
  constructor
  · rw [convert_bf_self, hf, hc]
    norm_num
  · norm_num

/-- C7 amended: self-conversion is the exact identity for every unit
with a factor (all linear categories and the linear wind units) and for
the three temperature units; the Beaufort unit instead returns the
floored input clamped to [0, 12], which equals the input exactly when it
is an integer in [0, 12]. -/
theorem c7_amended :
    (∀ (c : Category) (u : MUnit), u ∈ UNITS c → ∀ f, u.factor = some f →
        ∀ v : ℚ, convert c u.value u.value v = some v)
    ∧ (∀ tu ∈ (["C", "F", "K"] : List String), ∀ v : ℚ,
        convert .temperature tu tu v = some v)
    ∧ (∀ v : ℚ, convert .wind "bf" "bf" v = some (((max 0 (min 12 ⌊v⌋)).toNat : ℚ)))
    ∧ (∀ n : ℕ, n ≤ 12 → convert .wind "bf" "bf" (n : ℚ) = some (n : ℚ)) := by
  refine ⟨?_, ?_, convert_bf_self, ?_⟩
  · intro c u hu f hf v
    cases c
    case temperature => fin_cases hu <;> exact Option.noConfusion hf
    case wind => exact convert_self_wind u hu f hf v
    case length => exact convert_self_linear .length trivial u hu f hf v
    case weight => exact convert_self_linear .weight trivial u hu f hf v
    case speed => exact convert_self_linear .speed trivial u hu f hf v
    case pressure => exact convert_self_linear .pressure trivial u hu f hf v
  · intro tu htu v
    fin_cases htu
    · rfl
    · rw [show convert .temperature "F" "F" v
          = some ((v - 32) * (5 / 9) * (9 / 5) + 32) from rfl]
      exact congrArg some (by ring)
    · rw [show convert .temperature "K" "K" v
          = some (v - 273.15 + 273.15) from rfl]
      exact congrArg some (by ring)
  · intro n hn
    rw [convert_bf_self]
    have hfl : ⌊((n : ℕ) : ℚ)⌋ = (n : ℤ) := Int.floor_natCast n
    rw [hfl]
    congr 1
    have : (max 0 (min 12 (n : ℤ))).toNat = n := by omega
    rw [this]

/-- Witness for C7 amended: meters convert to meters unchanged. -/
theorem c7_witness : convert .length "m" "m" 5 = some 5 :=
  c7_amended.1 .length ⟨"Meters (m)", "m", some 1, none⟩
    (List.Mem.tail _ (List.Mem.tail _ (List.Mem.head _))) 1 rfl 5

end Metrics
